import Mathlib

/-!
Verification of the sentinel-based extraction / normalization core of
IRvisualizer.py, a batch converter for IR spectra stored in two-column
CSV exports.

Embedding choices:
- A raw table (the result of pandas.read_csv with names ["X", "Y"]) is a
  list of rows, each row a pair of text fields.  When a column holds a
  sentinel string, pandas leaves every element of that column as text,
  so cells are modelled as `String`.
- Floating-point cell values are modelled as rationals; the library's
  string-to-float conversion performed by astype("float64") is modelled
  by the decimal-number grammar `pyFloat` (optional sign, digits,
  optional fractional part).
- Exceptions raised by pandas (`Index.item` on a size != 1 index,
  `astype` on a non-numeric string) are modelled with `Except`.
-/

namespace IRvisualizer

/-- A row of the numeric table: two float64 columns X and Y. -/
structure Row where
  X : ℚ
  Y : ℚ
deriving Repr, DecidableEq

/-- A raw two-column table as produced by pandas.read_csv: the X and Y
text fields of each row, in file order, indexed by position. -/
abbrev RawTable := List (String × String)

/-- The exceptions the extraction pipeline can raise. -/
inductive PyError where
  /-- ValueError from Index.item() on an index of size 0 or > 1. -/
  | valueErrorItem
  /-- ValueError from astype("float64") on a non-numeric string. -/
  | valueErrorAstype
deriving Repr, DecidableEq

/-- Accumulate decimal digits; fails on a non-digit character. -/
def digitsVal : List Char → ℕ → Option ℕ
  | [], acc => some acc
  | c :: cs, acc =>
      if c.isDigit then digitsVal cs (acc * 10 + (c.toNat - 48)) else none

/-- A non-empty run of decimal digits. -/
def parseNatDigits : List Char → Option ℕ
  | [] => none
  | cs => digitsVal cs 0

/-- Unsigned decimal number: digits, optionally followed by a point and
more digits. -/
def parseUnsigned (cs : List Char) : Option ℚ :=
  let intPart := cs.takeWhile (fun c => c ≠ '.')
  match cs.dropWhile (fun c => c ≠ '.') with
  | [] => (parseNatDigits intPart).map (fun n => (n : ℚ))
  | _ :: frac =>
      match parseNatDigits intPart, parseNatDigits frac with
      | some n, some f => some ((n : ℚ) + (f : ℚ) / (10 : ℚ) ^ frac.length)
      | _, _ => none

/-- The string-to-float conversion applied by astype("float64"),
modelled on the core decimal grammar accepted by Python floats
(optional leading minus sign, decimal digits, optional fraction);
`none` means the string cannot be coerced to a float. -/
def pyFloat (s : String) : Option ℚ :=
  match s.data with
  | '-' :: rest => (parseUnsigned rest).map (fun q => -q)
  | cs => parseUnsigned cs

/-- Positions of the raw rows whose X field equals the marker string:
pandas `xydata.index[xydata["X"] == marker]`. -/
def findIndices (t : RawTable) (m : String) : List ℕ :=
  (List.range t.length).filter (fun i => (t.get? i).map Prod.fst = some m)

/-- pandas `Index.item()`: the sole element of a size-one index,
ValueError otherwise. -/
def indexItem : List ℕ → Except PyError ℕ
  | [i] => Except.ok i
  | _ => Except.error PyError.valueErrorItem

/-- astype("float64") on one cell. -/
def coerceCell (s : String) : Except PyError ℚ :=
  match pyFloat s with
  | some q => Except.ok q
  | none => Except.error PyError.valueErrorAstype

/-- astype("float64") on one raw row: both fields coerced. -/
def coerceRow (p : String × String) : Except PyError Row :=
  match coerceCell p.1 with
  | Except.error e => Except.error e
  | Except.ok x =>
      match coerceCell p.2 with
      | Except.error e => Except.error e
      | Except.ok y => Except.ok (Row.mk x y)

/-- astype("float64") on the sliced table. -/
def coerceRows : List (String × String) → Except PyError (List Row)
  | [] => Except.ok []
  | p :: ps =>
      match coerceRow p with
      | Except.error e => Except.error e
      | Except.ok r =>
          match coerceRows ps with
          | Except.error e => Except.error e
          | Except.ok rs => Except.ok (r :: rs)

/-- The extractor: locate the "XYDATA" start marker and the
"##### Extended Information" end marker with Index.item(), slice the
rows strictly between them (iloc[data_start + 1 : data_end]), reindex
from zero, and coerce both columns to float64. -/
def import_irdata_from_csv (t : RawTable) : Except PyError (List Row) :=
  match indexItem (findIndices t "XYDATA") with
  | Except.error e => Except.error e
  | Except.ok data_start =>
      match indexItem (findIndices t "##### Extended Information") with
      | Except.error e => Except.error e
      | Except.ok data_end =>
          coerceRows ((t.drop (data_start + 1)).take (data_end - (data_start + 1)))

/-- pandas Series.max over the Y column; on an empty series pandas
returns NaN, modelled here by the junk value 0 (every claim about
normalization assumes at least one row). -/
def seriesMax : List ℚ → ℚ
  | [] => 0
  | a :: as => as.foldl max a

/-- The normalizer: df["Y"] = df["Y"] / df["Y"].max().  The divisor is
the maximum of the original Y column, computed before any element is
replaced. -/
def normalize_y (t : List Row) : List Row :=
  let m := seriesMax (t.map Row.Y)
  t.map (fun r => Row.mk r.X (r.Y / m))

/-- Calling normalize_y never raises: pandas elementwise division
yields inf/NaN on a zero divisor instead of raising, and Series.max on
a non-empty numeric column is total, so the Python function always
returns normally.  Modelled by wrapping the result in Except.ok. -/
def normalize_y_run (t : List Row) : Except PyError (List Row) :=
  Except.ok (normalize_y t)

/-- Python str.strip(chars): remove the characters of the set from both
ends of the string. -/
def pyStrip (s : String) (bad : List Char) : String :=
  String.mk (((s.data.dropWhile (fun c => bad.contains c)).reverse.dropWhile
    (fun c => bad.contains c)).reverse)

/-- The output file name computed by the main loop:
file.strip(".csv") + "_normalized.csv".  Note that str.strip removes
the characters '.', 'c', 's', 'v' from both ends, not the suffix. -/
def output_filename (file : String) : String :=
  pyStrip file ['.', 'c', 's', 'v'] ++ "_normalized.csv"

/-- The first list is an initial segment of the second. -/
def listIsPfx : List Char → List Char → Bool
  | [], _ => true
  | _ :: _, [] => false
  | a :: as, b :: bs => a = b && listIsPfx as bs

/-- Python substring test `pat in s`. -/
def strContains (s pat : String) : Bool :=
  (List.range (s.data.length + 1)).any (fun i => listIsPfx pat.data (s.data.drop i))

/-- The per-file outcome of one iteration of the main loop. -/
inductive FileOutcome where
  /-- "WARNING: Encountered invalid file type ... Skipping this file." -/
  | skipInvalid
  /-- "Skipping previously processed file ..." -/
  | skipProcessed
  /-- The file was imported, normalized, plotted and saved: the record
  carries the name of the written sibling file and the rows written. -/
  | saved (outfile : String) (rows : List Row)
  /-- An exception escaped import_irdata_from_csv: the batch aborts. -/
  | crashed (e : PyError)
deriving Repr, DecidableEq

/-- The batch loop over the file arguments.  `env` maps a file name to
the raw table pandas.read_csv would produce for it.  Each file is
dispatched exactly as in the main loop: no ".csv" substring warns and
skips, a "_normalized.csv" substring skips, otherwise the file is
imported, normalized and saved.  An exception from the extractor is
uncaught in the reference, so it ends the batch. -/
def runBatch (env : String → RawTable) : List String → List (String × FileOutcome)
  | [] => []
  | f :: fs =>
      if strContains f ".csv" = false then
        (f, FileOutcome.skipInvalid) :: runBatch env fs
      else if strContains f "_normalized.csv" = true then
        (f, FileOutcome.skipProcessed) :: runBatch env fs
      else
        match import_irdata_from_csv (env f) with
        | Except.error e => [(f, FileOutcome.crashed e)]
        | Except.ok rows =>
            (f, FileOutcome.saved (output_filename f) (normalize_y rows)) :: runBatch env fs

/-- A reference to a DataFrame object on the Python heap; addresses are
positions in the heap list. -/
structure Ref where
  addr : ℕ
deriving Repr, DecidableEq

/-- The Python heap restricted to DataFrame objects. -/
abbrev Heap := List (List Row)

/-- Calling normalize_y on a reference: df["Y"] = ... updates the
referenced object in place, and `return df` hands back the very same
reference. -/
def normalize_y_call (h : Heap) (r : Ref) : Heap × Ref :=
  (h.set r.addr (normalize_y (h.getD r.addr [])), r)

/-- The two assignments of the main loop for one file:
importedData[file] = import_irdata_from_csv(file) allocates a fresh
DataFrame, then normalizedData[file] = normalize_y(importedData[file])
stores whatever reference that call returns.  The result is the final
heap and the references held by the two dictionaries. -/
def import_then_normalize (h : Heap) (rows : List Row) : Heap × Ref × Ref :=
  let rImp : Ref := Ref.mk h.length
  let h1 : Heap := h ++ [rows]
  let res := normalize_y_call h1 rImp
  (res.1, rImp, res.2)

/-- Both fields of a raw row coerced to float, with a junk value 0 on a
cell that does not parse (only ever used when both cells parse). -/
def coercedRow (p : String × String) : Row :=
  Row.mk ((pyFloat p.1).getD 0) ((pyFloat p.2).getD 0)

theorem indexItem_error (l : List ℕ) (h : l.length ≠ 1) :
    indexItem l = Except.error PyError.valueErrorItem := by
  match l with
  | [] => rfl
  | [i] => exact absurd rfl h
  | i :: j :: rest => rfl

theorem coerceRow_ok (p : String × String) (hx : (pyFloat p.1).isSome = true)
    (hy : (pyFloat p.2).isSome = true) :
    coerceRow p = Except.ok (coercedRow p) := by
  rcases Option.isSome_iff_exists.mp hx with ⟨x, hx1⟩
  rcases Option.isSome_iff_exists.mp hy with ⟨y, hy1⟩
  simp [coerceRow, coerceCell, coercedRow, hx1, hy1]

theorem coerceRow_error (p : String × String)
    (h : pyFloat p.1 = none ∨ pyFloat p.2 = none) :
    coerceRow p = Except.error PyError.valueErrorAstype := by
  rcases h with h | h
  · simp [coerceRow, coerceCell, h]
  · rcases hx : pyFloat p.1 with _ | x <;> simp [coerceRow, coerceCell, hx, h]

theorem coerceRows_ok (l : List (String × String))
    (h : ∀ p ∈ l, (pyFloat p.1).isSome = true ∧ (pyFloat p.2).isSome = true) :
    coerceRows l = Except.ok (l.map coercedRow) := by
  induction l with
  | nil => rfl
  | cons p ps ih =>
      have hp := h p (List.mem_cons_self p ps)
      have hps := ih (fun q hq => h q (List.mem_cons_of_mem p hq))
      simp [coerceRows, coerceRow_ok p hp.1 hp.2, hps]

theorem coerceRows_error (l : List (String × String))
    (h : ∃ p ∈ l, pyFloat p.1 = none ∨ pyFloat p.2 = none) :
    coerceRows l = Except.error PyError.valueErrorAstype := by
  induction l with
  | nil => simp at h
  | cons p ps ih =>
      by_cases hp : pyFloat p.1 = none ∨ pyFloat p.2 = none
      · simp [coerceRows, coerceRow_error p hp]
      · push_neg at hp
        have hx : (pyFloat p.1).isSome = true := Option.ne_none_iff_isSome.mp hp.1
        have hy : (pyFloat p.2).isSome = true := Option.ne_none_iff_isSome.mp hp.2
        have hq : ∃ q ∈ ps, pyFloat q.1 = none ∨ pyFloat q.2 = none := by
          rcases h with ⟨q, hq1, hq2⟩
          rcases List.mem_cons.mp hq1 with rfl | hq3
          · exact absurd hq2 (by push_neg; exact hp)
          · exact ⟨q, hq3, hq2⟩
        simp [coerceRows, coerceRow_ok p hx hy, ih hq]

theorem findIndices_lt (t : RawTable) (m : String) (e : ℕ)
    (h : findIndices t m = [e]) : e < t.length := by
  have he : e ∈ findIndices t m := by rw [h]; exact List.mem_singleton_self e
  unfold findIndices at he
  exact List.mem_range.mp (List.mem_of_mem_filter he)

theorem import_eq_coerce (t : RawTable) (s e : ℕ)
    (hs : findIndices t "XYDATA" = [s])
    (he : findIndices t "##### Extended Information" = [e]) :
    import_irdata_from_csv t =
      coerceRows ((t.drop (s + 1)).take (e - (s + 1))) := by
  unfold import_irdata_from_csv
  rw [hs, he]
  rfl

/-- C1: on a raw table with a unique "XYDATA" row at index s and a
unique "##### Extended Information" row at index e, with e > s + 1 and
every cell strictly between the markers coercible to float, extraction
succeeds with exactly e - s - 1 rows, which are the rows of the raw
table at positions s + 1, ..., e - 1 in order, reindexed from 0, both
fields coerced. -/
theorem extraction_window_spec (t : RawTable) (s e : ℕ)
    (hs : findIndices t "XYDATA" = [s])
    (he : findIndices t "##### Extended Information" = [e])
    (hlt : s + 1 < e)
    (hc : ∀ p ∈ (t.drop (s + 1)).take (e - (s + 1)),
      (pyFloat p.1).isSome = true ∧ (pyFloat p.2).isSome = true) :
    ∃ out, import_irdata_from_csv t = Except.ok out ∧
      out.length = e - s - 1 ∧
      ∀ i, i < e - s - 1 → ∃ p, t.get? (s + 1 + i) = some p ∧
        out.get? i = some (coercedRow p) := by
  have hel := findIndices_lt t "##### Extended Information" e he
  refine ⟨((t.drop (s + 1)).take (e - (s + 1))).map coercedRow, ?_, ?_, ?_⟩
  · rw [import_eq_coerce t s e hs he, coerceRows_ok _ hc]
  · rw [List.length_map, List.length_take, List.length_drop]
    omega
  · intro i hi
    have hip : s + 1 + i < t.length := by omega
    refine ⟨t.get ⟨s + 1 + i, hip⟩, List.get?_eq_get hip, ?_⟩
    rw [List.get?_map]
    have h1 : ((t.drop (s + 1)).take (e - (s + 1))).get? i = (t.drop (s + 1)).get? i :=
      List.get?_take (by omega)
    rw [h1, List.get?_drop, List.get?_eq_get hip]
    rfl

/-- Witness for C1: the spec's sample layout, markers at indices 1 and
5, three data rows. -/
theorem extraction_window_spec_witness :
    ∃ out,
      import_irdata_from_csv
        [("created", "2020"), ("XYDATA", ""), ("1000", "0.2"), ("999", "0.5"),
          ("998", "0.1"), ("##### Extended Information", "")] = Except.ok out ∧
      out.length = 5 - 1 - 1 ∧
      ∀ i, i < 5 - 1 - 1 → ∃ p,
        (([("created", "2020"), ("XYDATA", ""), ("1000", "0.2"), ("999", "0.5"),
          ("998", "0.1"), ("##### Extended Information", "")] : RawTable)).get? (1 + 1 + i) = some p ∧
        out.get? i = some (coercedRow p) :=
  extraction_window_spec
    [("created", "2020"), ("XYDATA", ""), ("1000", "0.2"), ("999", "0.5"),
      ("998", "0.1"), ("##### Extended Information", "")]
    1 5 (by decide) (by decide) (by decide) (by decide)

theorem foldl_max_div (m : ℚ) (hm : 0 < m) (as : List ℚ) :
    ∀ a : ℚ, (as.map (fun y => y / m)).foldl max (a / m) = (as.foldl max a) / m := by
  induction as with
  | nil => intro a; rfl
  | cons b bs ih =>
      intro a
      simp only [List.map_cons, List.foldl_cons]
      rw [max_div_div_right (le_of_lt hm) a b]
      exact ih (max a b)

theorem seriesMax_div (l : List ℚ) (m : ℚ) (hm : 0 < m) :
    seriesMax (l.map (fun y => y / m)) = seriesMax l / m := by
  cases l with
  | nil => simp [seriesMax]
  | cons a as => simpa [seriesMax] using foldl_max_div m hm as a

/-- C2 counterexample: the table [(5, -2), (6, -1)] has max Y = -1,
which is nonzero, yet after normalization the maximum Y value is 2,
not 1: dividing by a negative maximum does not rescale to 1. -/
theorem normalize_negative_max_not_one :
    seriesMax (List.map Row.Y [Row.mk 5 (-2), Row.mk 6 (-1)]) ≠ 0 ∧
    seriesMax (List.map Row.Y (normalize_y [Row.mk 5 (-2), Row.mk 6 (-1)])) = 2 := by
  constructor
  · norm_num [seriesMax]
  · norm_num [normalize_y, seriesMax]

/-- C2 (amended): for every numeric table with at least one row and
max(Y) > 0 (not merely nonzero), normalization preserves the row
count, the order, and every X value, and the maximum Y value of the
output is exactly 1. -/
theorem normalize_pos_max (t : List Row) (hne : 1 ≤ t.length)
    (hm : 0 < seriesMax (t.map Row.Y)) :
    (normalize_y t).length = t.length ∧
    (normalize_y t).map Row.X = t.map Row.X ∧
    seriesMax ((normalize_y t).map Row.Y) = 1 := by
  refine ⟨by simp [normalize_y], by simp [normalize_y], ?_⟩
  have hmap : (normalize_y t).map Row.Y =
      (t.map Row.Y).map (fun y => y / seriesMax (t.map Row.Y)) := by
    simp [normalize_y, List.map_map]
  rw [hmap, seriesMax_div _ _ hm, div_self (ne_of_gt hm)]

/-- Witness for C2 (amended): the spec's sample data
[(1000, 0.2), (999, 0.5), (998, 0.1)]. -/
theorem normalize_pos_max_witness :
    1 ≤ ([Row.mk 1000 (2/10), Row.mk 999 (5/10), Row.mk 998 (1/10)] : List Row).length ∧
    0 < seriesMax (List.map Row.Y [Row.mk 1000 (2/10), Row.mk 999 (5/10), Row.mk 998 (1/10)]) ∧
    ((normalize_y [Row.mk 1000 (2/10), Row.mk 999 (5/10), Row.mk 998 (1/10)]).length =
        ([Row.mk 1000 (2/10), Row.mk 999 (5/10), Row.mk 998 (1/10)] : List Row).length ∧
      (normalize_y [Row.mk 1000 (2/10), Row.mk 999 (5/10), Row.mk 998 (1/10)]).map Row.X =
        List.map Row.X [Row.mk 1000 (2/10), Row.mk 999 (5/10), Row.mk 998 (1/10)] ∧
      seriesMax ((normalize_y [Row.mk 1000 (2/10), Row.mk 999 (5/10), Row.mk 998 (1/10)]).map Row.Y) = 1) :=
  ⟨by norm_num, by norm_num [seriesMax],
    normalize_pos_max [Row.mk 1000 (2/10), Row.mk 999 (5/10), Row.mk 998 (1/10)]
      (by norm_num) (by norm_num [seriesMax])⟩

/-- C3: normalization is idempotent — on a table whose maximum Y value
is already 1, normalize_y divides every Y by 1 and returns a table
equal to the input. -/
theorem normalize_idempotent_input (t : List Row)
    (h : seriesMax (t.map Row.Y) = 1) : normalize_y t = t := by
  unfold normalize_y
  rw [h]
  show List.map (fun r : Row => Row.mk r.X (r.Y / 1)) t = t
  have hrow : (fun r : Row => Row.mk r.X (r.Y / 1)) = fun r : Row => r := by
    funext r
    simp [div_one]
  rw [hrow]
  exact List.map_id t

/-- Witness for C3: the one-row table [(4, 1)] already has max Y = 1
and is returned unchanged. -/
theorem normalize_idempotent_input_witness :
    seriesMax (List.map Row.Y [Row.mk 4 1]) = 1 ∧
    normalize_y [Row.mk 4 1] = [Row.mk 4 1] :=
  ⟨rfl, normalize_idempotent_input [Row.mk 4 1] rfl⟩

/-- C4 counterexample: on the table [(1, 0)], whose maximum Y value is
0, normalize_y returns normally with a table — it does not fail with
any error: the function has no error path and pandas silently divides
by zero. -/
theorem normalize_zero_max_returns_table :
    seriesMax (List.map Row.Y [Row.mk 1 0]) = 0 ∧
    (normalize_y_run [Row.mk 1 0]).isOk = true :=
  ⟨rfl, rfl⟩

/-- C4 (amended): on every table whose maximum Y value is 0,
normalization does not raise: it performs the division anyway and
returns a table with the same row count and the same X values (the
divided Y values are non-finite NaN/inf in IEEE arithmetic; division
by zero yields 0 in this rational model). -/
theorem normalize_zero_max_no_error (t : List Row)
    (h : seriesMax (t.map Row.Y) = 0) :
    (normalize_y_run t).isOk = true ∧
    (normalize_y t).length = t.length ∧
    (normalize_y t).map Row.X = t.map Row.X :=
  ⟨rfl, by simp [normalize_y], by simp [normalize_y]⟩

/-- Witness for C4 (amended): the table [(1, 0)]. -/
theorem normalize_zero_max_no_error_witness :
    seriesMax (List.map Row.Y [Row.mk 1 0]) = 0 ∧
    ((normalize_y_run [Row.mk 1 0]).isOk = true ∧
      (normalize_y [Row.mk 1 0]).length = ([Row.mk 1 0] : List Row).length ∧
      (normalize_y [Row.mk 1 0]).map Row.X = List.map Row.X [Row.mk 1 0]) :=
  ⟨rfl, normalize_zero_max_no_error [Row.mk 1 0] rfl⟩

/-- C5: when the "XYDATA" start marker or the
"##### Extended Information" end marker occurs zero times or more than
once in the X column, extraction fails with the ValueError that
Index.item() raises on an index of size other than one. -/
theorem ambiguous_marker_error (t : RawTable)
    (h : (findIndices t "XYDATA").length ≠ 1 ∨
      (findIndices t "##### Extended Information").length ≠ 1) :
    import_irdata_from_csv t = Except.error PyError.valueErrorItem := by
  unfold import_irdata_from_csv
  rcases h with h | h
  · rw [indexItem_error _ h]
  · by_cases h1 : (findIndices t "XYDATA").length = 1
    · obtain ⟨s, hs⟩ := List.length_eq_one.mp h1
      rw [hs, indexItem_error _ h]
      rfl
    · rw [indexItem_error _ h1]

/-- Witness for C5: a table without any marker row. -/
theorem ambiguous_marker_error_witness :
    import_irdata_from_csv [("1000", "0.2")] = Except.error PyError.valueErrorItem :=
  ambiguous_marker_error [("1000", "0.2")] (Or.inl (by decide))

/-- C6 counterexample: with the start marker at index 0 immediately
followed by the end marker at index 1 (a degenerate range with no rows
between the markers), extraction does not fail: it returns the empty
table, because iloc slicing yields an empty frame and astype succeeds
on it. -/
theorem degenerate_range_returns_ok :
    import_irdata_from_csv [("XYDATA", ""), ("##### Extended Information", "")] =
      Except.ok [] := by
  rfl

/-- C6 (amended): for every raw table with unique start and end markers
at indices s and e where the range is degenerate (e ≤ s + 1, covering
both an end marker at or before the start marker and adjacent markers),
extraction succeeds and returns the empty table rather than failing. -/
theorem degenerate_range_empty_table (t : RawTable) (s e : ℕ)
    (hs : findIndices t "XYDATA" = [s])
    (he : findIndices t "##### Extended Information" = [e])
    (hle : e ≤ s + 1) :
    import_irdata_from_csv t = Except.ok [] := by
  rw [import_eq_coerce t s e hs he]
  have h0 : e - (s + 1) = 0 := by omega
  rw [h0, List.take_zero]
  rfl

/-- Witness for C6 (amended): the end marker strictly before the start
marker. -/
theorem degenerate_range_empty_table_witness :
    import_irdata_from_csv
      [("##### Extended Information", ""), ("1000", "0.2"), ("XYDATA", "")] =
      Except.ok [] :=
  degenerate_range_empty_table
    [("##### Extended Information", ""), ("1000", "0.2"), ("XYDATA", "")]
    2 0 (by decide) (by decide) (by decide)

/-- C7: with unique markers at s and e, if some row strictly between
the markers holds a cell that cannot be coerced to a float, extraction
fails with the ValueError that astype("float64") raises. -/
theorem coercion_failure_error (t : RawTable) (s e : ℕ)
    (hs : findIndices t "XYDATA" = [s])
    (he : findIndices t "##### Extended Information" = [e])
    (hbad : ∃ p ∈ (t.drop (s + 1)).take (e - (s + 1)),
      pyFloat p.1 = none ∨ pyFloat p.2 = none) :
    import_irdata_from_csv t = Except.error PyError.valueErrorAstype := by
  rw [import_eq_coerce t s e hs he]
  exact coerceRows_error _ hbad

/-- Witness for C7: a non-numeric Y cell inside the data region. -/
theorem coercion_failure_error_witness :
    import_irdata_from_csv
      [("XYDATA", ""), ("1000", "strong absorption"), ("##### Extended Information", "")] =
      Except.error PyError.valueErrorAstype :=
  coercion_failure_error
    [("XYDATA", ""), ("1000", "strong absorption"), ("##### Extended Information", "")]
    0 2 (by decide) (by decide) (by decide)

/-- C8 (failing input evaluated): for the accepted input "sample.csv"
the main loop computes the output name with file.strip(".csv") +
"_normalized.csv", and str.strip removes the characters '.', 'c', 's',
'v' from both ends of the name — not the ".csv" suffix — so the data
is written to "ample_normalized.csv", not to the sibling
"sample_normalized.csv" the spec names. -/
theorem strip_bug_output_name :
    output_filename "sample.csv" = "ample_normalized.csv" ∧
    output_filename "sample.csv" ≠ "sample_normalized.csv" := by
  constructor
  · rfl
  · decide

/-- C9: a file argument without the ".csv" substring, or with the
"_normalized.csv" substring, is skipped by the batch loop — its
outcome is a warning skip that carries no extraction, normalization or
written output — and the loop continues with the remaining arguments
exactly as if the skipped file were absent. -/
theorem skip_branch (env : String → RawTable) (f : String) (fs : List String)
    (h : strContains f ".csv" = false ∨ strContains f "_normalized.csv" = true) :
    runBatch env (f :: fs) =
      (f, if strContains f ".csv" = false then FileOutcome.skipInvalid
        else FileOutcome.skipProcessed) :: runBatch env fs := by
  cases hc : strContains f ".csv" with
  | false => simp [runBatch, hc]
  | true =>
      have h2 : strContains f "_normalized.csv" = true := by
        rcases h with h | h
        · rw [hc] at h; cases h
        · exact h
      simp [runBatch, hc, h2]

/-- Witness for C9: a .txt file in front of a .csv file is skipped and
the rest of the batch still runs. -/
theorem skip_branch_witness :
    runBatch (fun n => if n = "b.csv" then [("XYDATA", ""), ("##### Extended Information", "")] else [])
      ["sample.txt", "b.csv"] =
      [("sample.txt", FileOutcome.skipInvalid),
        ("b.csv", FileOutcome.saved "b_normalized.csv" [])] := by
  have h := skip_branch
    (fun n => if n = "b.csv" then [("XYDATA", ""), ("##### Extended Information", "")] else [])
    "sample.txt" ["b.csv"] (Or.inl (by decide))
  rw [h]
  rfl

/-- C10: the two assignments of the main loop alias:
importedData[file] receives a fresh DataFrame, normalize_y updates
that very object in place and returns the same reference, so
normalizedData[file] and importedData[file] are the same object, and
the object now holds the normalized rows — the pre-normalization Y
values are no longer reachable through either dictionary. -/
theorem normalize_alias (h : Heap) (rows : List Row) :
    (import_then_normalize h rows).2.1 = (import_then_normalize h rows).2.2 ∧
    (import_then_normalize h rows).1.get? (import_then_normalize h rows).2.1.addr =
      some (normalize_y rows) := by
  constructor
  · rfl
  · show ((h ++ [rows]).set h.length
      (normalize_y ((h ++ [rows]).getD h.length []))).get? h.length = some (normalize_y rows)
    have hget : (h ++ [rows]).getD h.length [] = rows := by
      rw [List.getD_eq_get?, List.get?_concat_length]
      rfl
    rw [hget]
    exact List.get?_set_eq_of_lt _ (by simp)

end IRvisualizer
